import Mathlib

/-!
Shallow embedding of the zen-h2s financial aggregation-and-scoring core.

Sources embedded here:
* `src/ai_agents/financial_agents/agents.py` — the pure scoring/projection
  helpers (`_determine_risk_profile`, `_calculate_discipline_score`,
  `_generate_recommendations`, `_generate_outlook`, `_generate_projection`,
  `_get_milestones`) and the aggregator `_build_dna_from_data`.
* `src/ai_agents/multi_agent_finance/agent.py` — `FinancialDataContext`
  defaults and `ErrorHandlingAgent._run_async_impl`'s health classification.
* `src/ai_agents/multi_agent_finance/utils.py` — the `async_retry` combinator.

Conventions: Python floats are modelled by `ℚ` (the code only performs
field arithmetic; rounding of IEEE doubles is outside this model), Python
dicts keyed by strings are modelled by insertion-ordered association lists,
Python `None`-able values by `Option`, and `dict.get(k, d)` by
`Option.getD`.  Wall-clock timestamps (`created_at`, `datetime.now()`
fields) are omitted: they carry no logical content for the claims below.
-/

namespace ZenH2S

/-! ### Association-list model of Python string-keyed dicts -/

/-- Lookup in an insertion-ordered association list (Python `m[k]` / `k in m`). -/
def lookupAssoc : List (String × ℚ) → String → Option ℚ
  | [], _ => none
  | p :: rest, k => if p.1 = k then some p.2 else lookupAssoc rest k

/-- Python `m[k] = v`: replace the value at an existing key in place,
otherwise append the new binding at the end (dict insertion order). -/
def updateAssoc : List (String × ℚ) → String → ℚ → List (String × ℚ)
  | [], k, v => [(k, v)]
  | p :: rest, k, v => if p.1 = k then (k, v) :: rest else p :: updateAssoc rest k v

/-- Python `m[k] += v` with a preceding membership test
(`if k in m: m[k] += v else: m[k] = v`). -/
def addAssoc : List (String × ℚ) → String → ℚ → List (String × ℚ)
  | [], k, v => [(k, v)]
  | p :: rest, k, v => if p.1 = k then (p.1, p.2 + v) :: rest else p :: addAssoc rest k v

/-- Python `sum(m.values())`. -/
def sumValues (m : List (String × ℚ)) : ℚ := (m.map Prod.snd).sum

/-! ### Substring test (Python `pat in s`) -/

/-- Test whether `pat` matches at the head of `s` (on character lists). -/
def startsWithChars : List Char → List Char → Bool
  | [], _ => true
  | _ :: _, [] => false
  | a :: pa, b :: pb => a == b && startsWithChars pa pb

/-- Test whether `pat` occurs somewhere in `s` (on character lists). -/
def hasSubChars (pat : List Char) : List Char → Bool
  | [] => startsWithChars pat []
  | b :: rest => startsWithChars pat (b :: rest) || hasSubChars pat rest

/-- Python `pat in s` for strings. -/
def containsSub (s pat : String) : Bool := hasSubChars pat.toList s.toList

/-- Python `s.lower()`, modelled characterwise. -/
def lowerString (s : String) : String := String.mk (s.toList.map Char.toLower)

/-! ### Scoring engine (`financial_agents/agents.py` lines 83-203) -/

/-- Embeds `_determine_risk_profile` (agents.py lines 83-90). -/
def determineRiskProfile (diversification : List (String × ℚ)) (savings_rate : ℚ) : String :=
  if (diversification.any fun p => containsSub (lowerString p.1) "equity") ∧ savings_rate > 15 then
    "aggressive"
  else if diversification.length ≥ 2 ∧ savings_rate > 10 then
    "moderate"
  else
    "conservative"

/-- Savings-rate component of `_calculate_discipline_score` (agents.py lines 97-103). -/
def disciplineSavingsComponent (savings_rate : ℚ) : ℚ :=
  if savings_rate > 20 then 40
  else if savings_rate > 10 then 25
  else if savings_rate > 0 then 15
  else 0

/-- Diversification component of `_calculate_discipline_score` (agents.py lines 105-111). -/
def disciplineDivComponent (diversification : List (String × ℚ)) : ℚ :=
  if diversification.length ≥ 3 then 30
  else if diversification.length ≥ 2 then 20
  else if diversification.length ≥ 1 then 10
  else 0

/-- Credit component of `_calculate_discipline_score` (agents.py lines 113-119).
The Python guards read `credit_score and credit_score > 750`: a `None` or `0`
score is falsy, so the conjunct `c ≠ 0` models Python truthiness. -/
def disciplineCreditComponent (credit_score : Option ℤ) : ℚ :=
  match credit_score with
  | none => 0
  | some c =>
    if c ≠ 0 ∧ c > 750 then 20
    else if c ≠ 0 ∧ c > 650 then 15
    else if c ≠ 0 ∧ c > 550 then 10
    else 0

/-- Leverage component of `_calculate_discipline_score` (agents.py lines 121-131).
The `else` branch (`+10`) fires for every non-positive `liabilities`. -/
def disciplineLeverageComponent (net_worth liabilities : ℚ) : ℚ :=
  if liabilities > 0 then
    let ratio := net_worth / liabilities
    if ratio > 3 then 10
    else if ratio > 2 then 7
    else if ratio > 1 then 5
    else 0
  else 10

/-- Embeds `_calculate_discipline_score` (agents.py lines 92-133): the sum of the four
components, capped by `min(score, 100)`. -/
def calculateDisciplineScore (savings_rate : ℚ) (diversification : List (String × ℚ))
    (credit_score : Option ℤ) (net_worth liabilities : ℚ) : ℚ :=
  min (disciplineSavingsComponent savings_rate + disciplineDivComponent diversification
      + disciplineCreditComponent credit_score
      + disciplineLeverageComponent net_worth liabilities) 100

/-- The four rule strings plus the maintenance fallback of
`_generate_recommendations` (agents.py lines 135-155). -/
def recSavings : String := "Increase savings rate to at least 20% of income"

def recDiversify : String := "Diversify investments across more asset classes"

def recCredit : String := "Focus on improving credit score through timely payments"

def recPlan : String := "Implement a structured financial plan with clear goals"

def recMaintain : String := "Maintain current financial discipline and consider wealth management"

/-- Python truthiness test `credit_score and credit_score < 750`
(agents.py line 146). -/
def creditRecFires (credit_score : Option ℤ) : Bool :=
  match credit_score with
  | none => false
  | some c => decide (c ≠ 0 ∧ c < 750)

/-- Embeds `_generate_recommendations` (agents.py lines 135-155). -/
def generateRecommendations (savings_rate : ℚ) (diversification : List (String × ℚ))
    (credit_score : Option ℤ) (discipline_score : ℚ) : List String :=
  let recs : List String := []
  let recs := if savings_rate < 20 then recs ++ [recSavings] else recs
  let recs := if diversification.length < 3 then recs ++ [recDiversify] else recs
  let recs := if creditRecFires credit_score then recs ++ [recCredit] else recs
  let recs := if discipline_score < 60 then recs ++ [recPlan] else recs
  if recs = [] then [recMaintain] else recs

/-- Embeds `_generate_outlook` (agents.py lines 157-166). -/
def generateOutlook (discipline_score : ℚ) : String :=
  if discipline_score ≥ 80 then "Excellent financial trajectory with strong wealth-building potential"
  else if discipline_score ≥ 60 then "Good financial foundation with opportunities for optimization"
  else if discipline_score ≥ 40 then "Moderate financial health requiring strategic improvements"
  else "Financial situation needs significant attention and restructuring"

/-- Embeds `_get_milestones` (agents.py lines 192-203). -/
def getMilestones (years : ℕ) (wealth : ℚ) : List String :=
  (if years ≥ 10 then ["Achieved substantial asset base"] else [])
    ++ (if years ≥ 20 then ["Building towards financial independence"] else [])
    ++ (if years ≥ 30 then ["Approaching retirement readiness"] else [])
    ++ (if wealth > 50000000 then ["Achieved financial independence"] else [])

/-- The per-horizon projection record returned by `_generate_projection`
(agents.py lines 185-190). -/
structure Projection where
  projected_net_worth : ℚ
  projected_age : ℕ
  financial_freedom_score : ℚ
  major_milestones : List String
deriving DecidableEq

/-- Embeds `_generate_projection` (agents.py lines 168-190): 8% assumed return,
income estimate `max(net_worth*0.15, 500000)`, compound growth of current
wealth plus future value of the annual savings stream. -/
def generateProjection (current_net_worth savings_rate : ℚ) (years : ℕ) : Projection :=
  let annual_return : ℚ := 8 / 100
  let annual_income := max (current_net_worth * (15 / 100)) 500000
  let annual_savings := annual_income * (savings_rate / 100)
  let future_wealth := current_net_worth * (1 + annual_return) ^ years
  let future_savings :=
    if annual_return > 0 then
      annual_savings * (((1 + annual_return) ^ years - 1) / annual_return)
    else
      annual_savings * (years : ℚ)
  let total_projected := future_wealth + future_savings
  { projected_net_worth := total_projected
    projected_age := 30 + years
    financial_freedom_score := min (total_projected / 10000000 * 100) 100
    major_milestones := getMilestones years total_projected }

/-! ### Source payload shapes consumed by `_build_dna_from_data`
(agents.py lines 205-330).  Every `dict.get(key, default)` in the Python is
mirrored by an `Option` field read with `Option.getD`. -/

/-- Embeds `asset.get('value', ...)` with its empty-dict default: the nested value box holding `units`. -/
structure ValueBox where
  units : Option ℚ
deriving DecidableEq

/-- One entry of `assetValues` / `liabilityValues`. -/
structure NWEntry where
  netWorthAttribute : Option String
  value : Option ValueBox
deriving DecidableEq

/-- Embeds `data['net_worth'].get('netWorthResponse', ...)` with its empty-dict default. -/
structure NetWorthResponse where
  assetValues : Option (List NWEntry)
  liabilityValues : Option (List NWEntry)
deriving DecidableEq

/-- The raw `data['net_worth']` payload. -/
structure NetWorthPayload where
  netWorthResponse : Option NetWorthResponse
deriving DecidableEq

/-- Embeds `data['credit_report'].get('creditReport', ...)` with its empty-dict default. -/
structure CreditReportInner where
  creditScore : Option ℤ
deriving DecidableEq

/-- The raw `data['credit_report']` payload. -/
structure CreditPayload where
  creditReport : Option CreditReportInner
deriving DecidableEq

/-- One `establishmentDetails` record. -/
structure Establishment where
  epfBalance : Option ℚ
deriving DecidableEq

/-- One `uanDetails` record. -/
structure UanDetail where
  establishmentDetails : Option (List Establishment)
deriving DecidableEq

/-- Embeds `data['epf_details'].get('epfDetails', ...)` with its empty-dict default. -/
structure EpfDetailsInner where
  uanDetails : Option (List UanDetail)
deriving DecidableEq

/-- The raw `data['epf_details']` payload. -/
structure EpfPayload where
  epfDetails : Option EpfDetailsInner
deriving DecidableEq

/-- One mutual-fund holding. -/
structure Holding where
  category : Option String
  currentValue : Option ℚ
deriving DecidableEq

/-- The raw `data['mf_transactions']` payload. -/
structure MfPayload where
  holdings : Option (List Holding)
deriving DecidableEq

/-- One bank transaction. -/
structure BankTransaction where
  amount : Option ℚ
deriving DecidableEq

/-- One bank account. -/
structure BankAccount where
  transactions : Option (List BankTransaction)
deriving DecidableEq

/-- The raw `data['bank_transactions']` payload. -/
structure BankPayload where
  accounts : Option (List BankAccount)
deriving DecidableEq

/-- The collected-data dict handed to `_build_dna_from_data`: a field is
`some _` exactly when the corresponding key is present in `data`
(the Python tests `'net_worth' in data` and so on). -/
structure CollectedData where
  net_worth : Option NetWorthPayload
  credit_report : Option CreditPayload
  epf_details : Option EpfPayload
  mf_transactions : Option MfPayload
  bank_transactions : Option BankPayload
deriving DecidableEq

/-- The collected data when zero sources succeeded. -/
def emptyCollectedData : CollectedData :=
  { net_worth := none, credit_report := none, epf_details := none,
    mf_transactions := none, bank_transactions := none }

/-! ### Aggregation (`_build_dna_from_data`) -/

/-- Category of an asset/liability entry: `asset.get('netWorthAttribute', 'Unknown')`. -/
def entryCat (e : NWEntry) : String := e.netWorthAttribute.getD "Unknown"

/-- Value of an asset/liability entry:
`float(asset.get('value', {}).get('units', 0))`. -/
def entryVal (e : NWEntry) : ℚ := (e.value.getD { units := none }).units.getD 0

/-- One step of the asset/liability loops (agents.py lines 224-235):
accumulate the running total and assign `breakdown[type] = value`. -/
def entryStep (acc : ℚ × List (String × ℚ)) (e : NWEntry) : ℚ × List (String × ℚ) :=
  (acc.1 + entryVal e, updateAssoc acc.2 (entryCat e) (entryVal e))

/-- The asset (resp. liability) loop of `_build_dna_from_data`: returns the
total and the breakdown dict. -/
def processEntries (entries : List NWEntry) : ℚ × List (String × ℚ) :=
  entries.foldl entryStep (0, [])

/-- The net-worth totals and breakdowns produced by agents.py lines 219-238;
all fields keep their zero/empty initialisation when the `net_worth` key is
absent. -/
structure NetWorthAgg where
  total_net_worth : ℚ
  total_assets : ℚ
  total_liabilities : ℚ
  asset_breakdown : List (String × ℚ)
  liability_breakdown : List (String × ℚ)
deriving DecidableEq

/-- Net-worth section of `_build_dna_from_data` (agents.py lines 219-238). -/
def processNetWorth : Option NetWorthPayload → NetWorthAgg
  | none => ⟨0, 0, 0, [], []⟩
  | some p =>
    let nwr := p.netWorthResponse.getD ⟨none, none⟩
    let a := processEntries (nwr.assetValues.getD [])
    let l := processEntries (nwr.liabilityValues.getD [])
    ⟨a.1 - l.1, a.1, l.1, a.2, l.2⟩

/-- Credit section of `_build_dna_from_data` (agents.py lines 241-244):
`credit_data.get('creditScore', None)`. -/
def processCredit : Option CreditPayload → Option ℤ
  | none => none
  | some p => (p.creditReport.getD ⟨none⟩).creditScore

/-- EPF section of `_build_dna_from_data` (agents.py lines 247-252): sum of
`establishment.get('epfBalance', 0)` over every nested record. -/
def processEpf : Option EpfPayload → ℚ
  | none => 0
  | some p =>
    let inner := p.epfDetails.getD ⟨none⟩
    ((inner.uanDetails.getD []).map fun uan =>
      (((uan.establishmentDetails.getD []).map fun est => est.epfBalance.getD 0)).sum).sum

/-- Total current value of the holdings:
`sum(float(h.get('currentValue', 0)) for h in holdings)`. -/
def totalMfValue (holdings : List Holding) : ℚ :=
  (holdings.map fun h => h.currentValue.getD 0).sum

/-- Mutual-fund section of `_build_dna_from_data` (agents.py lines 255-270):
group current values by `category` (summing duplicates), then replace each
group by its percentage of the total — or `0` when the total is not positive. -/
def buildDiversification (holdings : List Holding) : List (String × ℚ) :=
  let total := totalMfValue holdings
  let m := holdings.foldl
    (fun m h => addAssoc m (h.category.getD "Other") (h.currentValue.getD 0)) []
  m.map fun p => (p.1, if total > 0 then p.2 / total * 100 else 0)

/-- Mutual-fund section entry point: holdings default to `[]`. -/
def processMf : Option MfPayload → List (String × ℚ)
  | none => []
  | some p => buildDiversification (p.holdings.getD [])

/-- One step of the bank-transaction loop (agents.py lines 281-287): positive
amounts accumulate as income, the rest as `abs(amount)` expenses. -/
def bankStep (acc : ℚ × ℚ) (t : BankTransaction) : ℚ × ℚ :=
  let amount := t.amount.getD 0
  if amount > 0 then (acc.1 + amount, acc.2) else (acc.1, acc.2 + |amount|)

/-- Bank section of `_build_dna_from_data` (agents.py lines 275-290):
`savings_rate = (income - expenses) / income * 100` with a zero guard. -/
def processBank : Option BankPayload → ℚ
  | none => 0
  | some p =>
    let totals := (p.accounts.getD []).foldl
      (fun acc a => (a.transactions.getD []).foldl bankStep acc) (0, 0)
    if totals.1 > 0 then (totals.1 - totals.2) / totals.1 * 100 else 0

/-- The `data_sources` list accumulated by `_build_dna_from_data`, in append order. -/
def dataSourcesUsed (data : CollectedData) : List String :=
  (if data.net_worth.isSome then ["net_worth"] else [])
    ++ (if data.credit_report.isSome then ["credit_report"] else [])
    ++ (if data.epf_details.isSome then ["epf_details"] else [])
    ++ (if data.mf_transactions.isSome then ["mf_transactions"] else [])
    ++ (if data.bank_transactions.isSome then ["bank_transactions"] else [])

/-- The `FinancialDNA` dataclass (agents.py lines 44-77).  `created_at` is a
wall-clock timestamp and is omitted from the pure model. -/
structure FinancialDNA where
  user_id : String
  session_id : String
  total_net_worth : ℚ
  total_assets : ℚ
  total_liabilities : ℚ
  asset_breakdown : List (String × ℚ)
  liability_breakdown : List (String × ℚ)
  investment_diversification : List (String × ℚ)
  risk_profile : String
  savings_rate : ℚ
  credit_score : Option ℤ
  epf_balance : ℚ
  financial_discipline_score : ℚ
  recommended_strategies : List String
  future_outlook : String
  projection_30_years : Projection
  projection_50_years : Projection
  projection_60_years : Projection
  data_sources_used : List String
deriving DecidableEq

/-- Embeds `_build_dna_from_data` (agents.py lines 205-330).  A total function: every
input produces a profile (the Python body contains no `raise`). -/
def buildDnaFromData (data : CollectedData) (user_id session_id : String) : FinancialDNA :=
  let nw := processNetWorth data.net_worth
  let credit_score := processCredit data.credit_report
  let epf_balance := processEpf data.epf_details
  let investment_diversification := processMf data.mf_transactions
  let savings_rate := processBank data.bank_transactions
  let risk_profile := determineRiskProfile investment_diversification savings_rate
  let discipline_score := calculateDisciplineScore savings_rate investment_diversification
    credit_score nw.total_net_worth nw.total_liabilities
  let recommendations := generateRecommendations savings_rate investment_diversification
    credit_score discipline_score
  let outlook := generateOutlook discipline_score
  { user_id := user_id
    session_id := session_id
    total_net_worth := nw.total_net_worth
    total_assets := nw.total_assets
    total_liabilities := nw.total_liabilities
    asset_breakdown := nw.asset_breakdown
    liability_breakdown := nw.liability_breakdown
    investment_diversification := investment_diversification
    risk_profile := risk_profile
    savings_rate := savings_rate
    credit_score := credit_score
    epf_balance := epf_balance
    financial_discipline_score := discipline_score
    recommended_strategies := recommendations
    future_outlook := outlook
    projection_30_years := generateProjection nw.total_net_worth savings_rate 30
    projection_50_years := generateProjection nw.total_net_worth savings_rate 50
    projection_60_years := generateProjection nw.total_net_worth savings_rate 60
    data_sources_used := dataSourcesUsed data }

/-- The `FinancialDataContext` dataclass defaults
(`multi_agent_finance/agent.py` lines 21-38).  The per-source payloads are
opaque upstream dictionaries, modelled as `Option Unit`; `__post_init__`
replaces a `None` errors list by `[]`, so the modelled default is `[]`.
The timestamp default is process wall-clock time and carries no content. -/
structure FinancialDataContext where
  net_worth : Option Unit := none
  credit_report : Option Unit := none
  epf_details : Option Unit := none
  mf_transactions : Option (List Unit) := none
  bank_transactions : Option (List Unit) := none
  stock_transactions : Option (List Unit) := none
  aggregation_timestamp : String := ""
  data_quality_score : ℚ := 0
  errors : List String := []

/-! ### Health classification (`multi_agent_finance/agent.py` lines 260-313) -/

/-- The state of one source key in `ctx.session.state`, as inspected by
`ErrorHandlingAgent._run_async_impl`: `missing` models a falsy value
(`if not data`), `errored m` a dict with a truthy `error` field `m`,
`incomplete` a dict with a truthy `incomplete` field, and `ok` any other
truthy value. -/
inductive SourceState where
  | missing
  | errored (msg : String)
  | incomplete
  | ok
deriving DecidableEq

/-- Boolean test for the `missing` source state. -/
def SourceState.isMissing : SourceState → Bool
  | SourceState.missing => true
  | _ => false

/-- The six source names, in the iteration order of the `data_sources` dict
(agent.py lines 267-274). -/
def healthSourceNames : List String :=
  ["Net Worth calculation", "Credit report retrieval", "EPF details",
   "Mutual fund transactions", "Bank transactions", "Stock transactions"]

/-- The `errors` list accumulated by the per-source loop
(agent.py lines 276-287): a "Missing data from …" entry per falsy source and
an "Error in …: …" entry per errored source, in iteration order
(`incomplete` adds only a warning). -/
def mkErrors : List (String × SourceState) → List String
  | [] => []
  | (n, SourceState.missing) :: rest => ("Missing data from " ++ n) :: mkErrors rest
  | (n, SourceState.errored m) :: rest => ("Error in " ++ n ++ ": " ++ m) :: mkErrors rest
  | _ :: rest => mkErrors rest

/-- Embeds `len([e for e in errors if "Missing data" in e])` (agent.py line 291). -/
def missingDataErrorCount (errors : List String) : ℕ :=
  (errors.filter fun e => containsSub e "Missing data").length

/-- System-health assessment of `ErrorHandlingAgent._run_async_impl`
(agent.py lines 289-299): the success ratio over the six fixed sources with
the 80/60 thresholds.  The argument lists the states of the six source keys
in dict order. -/
def systemStatusOf (sts : List SourceState) : String :=
  let errors := mkErrors (healthSourceNames.zip sts)
  let total := healthSourceNames.length
  let successful := total - missingDataErrorCount errors
  let health_percentage : ℚ := (successful : ℚ) / (total : ℚ) * 100
  if health_percentage ≥ 80 then "healthy"
  else if health_percentage ≥ 60 then "degraded"
  else "critical"

/-- Number of sources that delivered data (non-missing states). -/
def okSourceCount (sts : List SourceState) : ℕ :=
  (sts.filter fun s => !s.isMissing).length

/-- Modelled from the spec: "success_ratio = successes/total across all
sources; ≥80%→healthy, ≥60%→degraded, else critical" — the claimed threshold
classification, stated directly on the success counts. -/
def specClassify (successes total : ℕ) : String :=
  if (successes : ℚ) / (total : ℚ) * 100 ≥ 80 then "healthy"
  else if (successes : ℚ) / (total : ℚ) * 100 ≥ 60 then "degraded"
  else "critical"

/-- The all-sources-missing run outcome. -/
def allMissingStates : List SourceState :=
  [SourceState.missing, SourceState.missing, SourceState.missing,
   SourceState.missing, SourceState.missing, SourceState.missing]

/-! ### Retry combinator (`multi_agent_finance/utils.py` lines 58-82) -/

/-- The wait computed before retry `attempt`:
`delay * (2 ** attempt) if exponential_backoff else delay` (utils.py line 75). -/
def backoffWait (delay : ℚ) (attempt : ℕ) (exponential : Bool) : ℚ :=
  if exponential then delay * 2 ^ attempt else delay

/-- The attempt loop of `async_retry` (utils.py lines 65-77): the wrapped
coroutine is modelled as a deterministic map from the attempt index to an
`Except` outcome, where `Except.error` stands for a raised exception.
`remaining = 0` is the final attempt (`attempt == max_retries`), on which a
failure is re-raised (`raise e`) instead of retried. -/
def asyncRetryAux {α : Type} (op : ℕ → Except String α) : ℕ → ℕ → Except String α
  | attempt, 0 => op attempt
  | attempt, remaining + 1 =>
    match op attempt with
    | Except.ok a => Except.ok a
    | Except.error _ => asyncRetryAux op (attempt + 1) remaining

/-- Embeds `async_retry(max_retries)` applied to an operation: runs attempts
`0, 1, …, max_retries` (hence `max_retries + 1` calls) and re-raises the
final failure. -/
def asyncRetry {α : Type} (maxRetries : ℕ) (op : ℕ → Except String α) : Except String α :=
  asyncRetryAux op 0 maxRetries

/-- The decorator default `max_retries: int = 3` (utils.py line 58). -/
def defaultMaxRetries : ℕ := 3

/-- Whether an outcome is a normal return (`Except.ok`); `false` means the
modelled coroutine raised. -/
def exceptIsOk {α : Type} : Except String α → Bool
  | Except.ok _ => true
  | Except.error _ => false

/-! ### Reference definitions written from the spec's words, for the
refinement-style claims -/

/-- Modelled from the spec (§4.4 Projection): fixed 8% return, income floor
500000, `future_wealth = net_worth*(1+r)^years`,
`future_savings = annual_savings*(((1+r)^years − 1)/r)` with linear fallback
if `r = 0`, `total = future_wealth + future_savings`. -/
def referenceProjectedNetWorth (net_worth savings_rate : ℚ) (years : ℕ) : ℚ :=
  let r : ℚ := 8 / 100
  let annual_income := max (net_worth * (15 / 100)) 500000
  let annual_savings := annual_income * (savings_rate / 100)
  let future_wealth := net_worth * (1 + r) ^ years
  let future_savings :=
    if r = 0 then annual_savings * (years : ℚ)
    else annual_savings * (((1 + r) ^ years - 1) / r)
  future_wealth + future_savings

/-- The discipline score exactly as claim C4 words it: same savings,
diversification and credit components, but the leverage bonus `+10` only at
`liabilities == 0`, and the final clamp to `[0, 100]`. -/
def disciplineScoreClaimed (savings_rate : ℚ) (diversification : List (String × ℚ))
    (credit_score : Option ℤ) (net_worth liabilities : ℚ) : ℚ :=
  let credit : ℚ :=
    match credit_score with
    | none => 0
    | some c => if c > 750 then 20 else if c > 650 then 15 else if c > 550 then 10 else 0
  let leverage : ℚ :=
    if liabilities > 0 then
      let ratio := net_worth / liabilities
      if ratio > 3 then 10 else if ratio > 2 then 7 else if ratio > 1 then 5 else 0
    else if liabilities = 0 then 10
    else 0
  max (min (disciplineSavingsComponent savings_rate + disciplineDivComponent diversification
      + credit + leverage) 100) 0

/-- The discipline score as amended: identical to `disciplineScoreClaimed`
except that the `+10` leverage bonus fires for every `liabilities ≤ 0`
(the code's `else` branch), exactly as the counterexample forces. -/
def disciplineScoreAmendedSpec (savings_rate : ℚ) (diversification : List (String × ℚ))
    (credit_score : Option ℤ) (net_worth liabilities : ℚ) : ℚ :=
  let credit : ℚ :=
    match credit_score with
    | none => 0
    | some c => if c > 750 then 20 else if c > 650 then 15 else if c > 550 then 10 else 0
  let leverage : ℚ :=
    if liabilities > 0 then
      let ratio := net_worth / liabilities
      if ratio > 3 then 10 else if ratio > 2 then 7 else if ratio > 1 then 5 else 0
    else 10
  max (min (disciplineSavingsComponent savings_rate + disciplineDivComponent diversification
      + credit + leverage) 100) 0

/-- The recommendation list as amended claim C5 words it: the four rules in
fixed order, where the improve-credit rule fires for a present, nonzero
credit score below 750, and a single maintenance entry when no rule fires. -/
def specRecommendationsAmended (savings_rate : ℚ) (diversification : List (String × ℚ))
    (credit_score : Option ℤ) (discipline_score : ℚ) : List String :=
  let fired :=
    (if savings_rate < 20 then [recSavings] else [])
      ++ (if diversification.length < 3 then [recDiversify] else [])
      ++ (if (match credit_score with
              | some c => decide (c ≠ 0 ∧ c < 750)
              | none => false) then [recCredit] else [])
      ++ (if discipline_score < 60 then [recPlan] else [])
  if fired = [] then [recMaintain] else fired

/-- The value of the last entry of `entries` whose category is `c`
(categories and values read with their `.get` defaults), used to state the
last-writer-wins behaviour of the breakdown dicts. -/
def lastValueFor : List NWEntry → String → Option ℚ
  | [], _ => none
  | e :: rest, c =>
    match lastValueFor rest c with
    | some v => some v
    | none => if entryCat e = c then some (entryVal e) else none

/-! ### Concrete example data used by counterexamples and witnesses -/

/-- A single holding whose current value is 0. -/
def zeroValueHolding : Holding := { category := some "Equity", currentValue := some 0 }

/-- Collected data whose only source is a fund-transactions payload holding
one zero-value holding. -/
def zeroValueMfData : CollectedData :=
  { emptyCollectedData with mf_transactions := some { holdings := some [zeroValueHolding] } }

/-- A two-holding portfolio with positive total current value. -/
def twoHoldingPortfolio : List Holding :=
  [{ category := some "Equity", currentValue := some 60 },
   { category := some "Debt", currentValue := some 40 }]

/-- Net-worth entries with pairwise-distinct categories (the §8 scenario:
property 5,000,000, savings 1,000,000). -/
def distinctAssetEntries : List NWEntry :=
  [{ netWorthAttribute := some "ASSET_TYPE_PROPERTY", value := some { units := some 5000000 } },
   { netWorthAttribute := some "ASSET_TYPE_SAVINGS", value := some { units := some 1000000 } }]

/-! ## Theorems -/

/-! ### Helper lemmas on the association-list dict model -/

theorem sumValues_nil : sumValues [] = 0 := rfl

theorem sumValues_cons (p : String × ℚ) (m : List (String × ℚ)) :
    sumValues (p :: m) = p.2 + sumValues m := by
  simp [sumValues]

theorem sumValues_addAssoc (m : List (String × ℚ)) (k : String) (v : ℚ) :
    sumValues (addAssoc m k v) = sumValues m + v := by
  induction m with
  | nil => simp [addAssoc, sumValues]
  | cons p rest ih =>
    by_cases h : p.1 = k
    · simp only [addAssoc, if_pos h, sumValues_cons]
      ring
    · simp only [addAssoc, if_neg h, sumValues_cons, ih]
      ring

theorem lookupAssoc_updateAssoc (m : List (String × ℚ)) (k : String) (v : ℚ) (c : String) :
    lookupAssoc (updateAssoc m k v) c = if k = c then some v else lookupAssoc m c := by
  induction m with
  | nil =>
    simp only [updateAssoc, lookupAssoc]
  | cons p rest ih =>
    by_cases h : p.1 = k
    · subst h
      simp only [updateAssoc, if_pos rfl, lookupAssoc]
      by_cases hc : p.1 = c <;> simp [hc]
    · simp only [updateAssoc, if_neg h, lookupAssoc, ih]
      by_cases hc : k = c
      · subst hc
        simp [if_neg h]
      · simp [hc]

theorem updateAssoc_of_lookup_none (m : List (String × ℚ)) (k : String) (v : ℚ)
    (h : lookupAssoc m k = none) : updateAssoc m k v = m ++ [(k, v)] := by
  induction m with
  | nil => rfl
  | cons p rest ih =>
    by_cases hp : p.1 = k
    · rw [lookupAssoc, if_pos hp] at h
      exact absurd h (by simp)
    · rw [lookupAssoc, if_neg hp] at h
      simp only [updateAssoc, if_neg hp, List.cons_append, ih h]

theorem lookupAssoc_append_single (m : List (String × ℚ)) (k : String) (v : ℚ) (c : String)
    (h1 : lookupAssoc m c = none) (h2 : k ≠ c) :
    lookupAssoc (m ++ [(k, v)]) c = none := by
  induction m with
  | nil => simp [lookupAssoc, h2]
  | cons p rest ih =>
    by_cases hp : p.1 = c
    · rw [lookupAssoc, if_pos hp] at h1
      exact absurd h1 (by simp)
    · rw [lookupAssoc, if_neg hp] at h1
      simp only [List.cons_append, lookupAssoc, if_neg hp]
      exact ih h1

/-! ### C1 -/

/-- C1: for every collected-data input — including inputs with no net-worth
source and inputs with empty asset or liability lists — the aggregated
profile satisfies `total_net_worth = total_assets − total_liabilities`
exactly. -/
theorem C1_net_worth_identity (d : CollectedData) (u s : String) :
    (buildDnaFromData d u s).total_net_worth
      = (buildDnaFromData d u s).total_assets - (buildDnaFromData d u s).total_liabilities := by
  cases h : d.net_worth <;> simp [buildDnaFromData, processNetWorth, h]

/-! ### C2 -/

/-- C2: when zero sources succeeded (every key absent from the collected
data), the aggregation still returns a profile — `buildDnaFromData` is a
total function, mirroring the `raise`-free Python body — with every numeric
field at its default, breakdown maps empty, credit score absent and no data
sources recorded; and the `FinancialDataContext` dataclass defaults give
`data_quality_score = 0`. -/
theorem C2_zero_sources_defaults (d : CollectedData) (u s : String)
    (h1 : d.net_worth = none) (h2 : d.credit_report = none) (h3 : d.epf_details = none)
    (h4 : d.mf_transactions = none) (h5 : d.bank_transactions = none) :
    (buildDnaFromData d u s).total_net_worth = 0
    ∧ (buildDnaFromData d u s).total_assets = 0
    ∧ (buildDnaFromData d u s).total_liabilities = 0
    ∧ (buildDnaFromData d u s).asset_breakdown = []
    ∧ (buildDnaFromData d u s).liability_breakdown = []
    ∧ (buildDnaFromData d u s).investment_diversification = []
    ∧ (buildDnaFromData d u s).credit_score = none
    ∧ (buildDnaFromData d u s).epf_balance = 0
    ∧ (buildDnaFromData d u s).savings_rate = 0
    ∧ (buildDnaFromData d u s).data_sources_used = []
    ∧ ({} : FinancialDataContext).data_quality_score = 0 := by
  simp [buildDnaFromData, processNetWorth, processCredit, processEpf, processMf, processBank,
    dataSourcesUsed, h1, h2, h3, h4, h5]

/-- Witness for C2 at the concrete empty collected-data map. -/
theorem C2_zero_sources_defaults_witness :
    (buildDnaFromData emptyCollectedData "user_123" "session_1").total_net_worth = 0
    ∧ (buildDnaFromData emptyCollectedData "user_123" "session_1").total_assets = 0
    ∧ (buildDnaFromData emptyCollectedData "user_123" "session_1").total_liabilities = 0
    ∧ (buildDnaFromData emptyCollectedData "user_123" "session_1").asset_breakdown = []
    ∧ (buildDnaFromData emptyCollectedData "user_123" "session_1").liability_breakdown = []
    ∧ (buildDnaFromData emptyCollectedData "user_123" "session_1").investment_diversification = []
    ∧ (buildDnaFromData emptyCollectedData "user_123" "session_1").credit_score = none
    ∧ (buildDnaFromData emptyCollectedData "user_123" "session_1").epf_balance = 0
    ∧ (buildDnaFromData emptyCollectedData "user_123" "session_1").savings_rate = 0
    ∧ (buildDnaFromData emptyCollectedData "user_123" "session_1").data_sources_used = []
    ∧ ({} : FinancialDataContext).data_quality_score = 0 :=
  C2_zero_sources_defaults emptyCollectedData "user_123" "session_1" rfl rfl rfl rfl rfl

/-! ### C3 -/

theorem sumValues_groupFold (hs : List Holding) : ∀ (init : List (String × ℚ)),
    sumValues (hs.foldl
        (fun m h => addAssoc m (h.category.getD "Other") (h.currentValue.getD 0)) init)
      = sumValues init + totalMfValue hs := by
  induction hs with
  | nil => intro init; simp [totalMfValue, sumValues]
  | cons h rest ih =>
    intro init
    rw [List.foldl_cons, ih, sumValues_addAssoc]
    simp only [totalMfValue, List.map_cons, List.sum_cons]
    ring

theorem sumValues_map_scale (m : List (String × ℚ)) (t : ℚ) :
    sumValues (m.map fun p => (p.1, p.2 / t * 100)) = sumValues m / t * 100 := by
  induction m with
  | nil => simp [sumValues]
  | cons p rest ih =>
    simp only [List.map_cons, sumValues_cons]
    rw [ih]
    ring

/-- C3 counterexample: a non-empty holdings list whose total current value is
0 produces a NON-empty `investment_diversification` map (all values 0), whose
values sum to 0, not to 100 within the 0.01 tolerance — refuting the claim
that every non-empty diversification map sums to 100. -/
theorem C3_counterexample :
    (buildDnaFromData zeroValueMfData "user_123" "session_1").investment_diversification
        = [("Equity", 0)]
    ∧ ¬ (|sumValues ((buildDnaFromData zeroValueMfData
          "user_123" "session_1").investment_diversification) - 100| ≤ 1 / 100) := by
  have h : (buildDnaFromData zeroValueMfData "user_123" "session_1").investment_diversification
      = [("Equity", 0)] := by
    norm_num [buildDnaFromData, processMf, zeroValueMfData, zeroValueHolding, emptyCollectedData,
      buildDiversification, totalMfValue, addAssoc]
  refine ⟨h, ?_⟩
  rw [h]
  intro hc
  have h100 : |sumValues [("Equity", 0)] - 100| = 100 := by
    have hs : sumValues [("Equity", (0 : ℚ))] = 0 := by simp [sumValues]
    rw [hs]
    norm_num
  rw [h100] at hc
  norm_num at hc

/-- C3 as amended: the invariant holds with the zero-total case carved out —
whenever the holdings have positive total current value the diversification
values sum to 100 (hence within any rounding tolerance); an empty holdings
list yields an empty map; and when the holdings are non-empty with
non-positive total value, every entry of the (non-empty) map is 0. -/
theorem C3_diversification_amended (hs : List Holding) :
    (0 < totalMfValue hs → |sumValues (buildDiversification hs) - 100| ≤ 1 / 100)
    ∧ (hs = [] → buildDiversification hs = [])
    ∧ (totalMfValue hs ≤ 0 → ∀ p ∈ buildDiversification hs, p.2 = 0) := by
  refine ⟨?_, ?_, ?_⟩
  · intro ht
    have hsum : sumValues (hs.foldl
        (fun m h => addAssoc m (h.category.getD "Other") (h.currentValue.getD 0)) [])
        = totalMfValue hs := by
      simpa [sumValues] using sumValues_groupFold hs []
    have hmap : buildDiversification hs
        = (hs.foldl
            (fun m h => addAssoc m (h.category.getD "Other") (h.currentValue.getD 0)) []).map
            (fun p => (p.1, p.2 / totalMfValue hs * 100)) := by
      simp only [buildDiversification]
      congr 1
      funext p
      rw [if_pos ht]
    rw [hmap, sumValues_map_scale, hsum, div_self (ne_of_gt ht)]
    norm_num
  · intro h
    subst h
    rfl
  · intro hle p hp
    simp only [buildDiversification, List.mem_map] at hp
    rcases hp with ⟨q, _, rfl⟩
    simp [if_neg (not_lt.mpr hle)]

/-- Witness for C3's amended invariant on a concrete two-holding portfolio
with positive total value. -/
theorem C3_diversification_amended_witness :
    0 < totalMfValue twoHoldingPortfolio
    ∧ |sumValues (buildDiversification twoHoldingPortfolio) - 100| ≤ 1 / 100 :=
  ⟨by norm_num [totalMfValue, twoHoldingPortfolio],
    (C3_diversification_amended twoHoldingPortfolio).1
      (by norm_num [totalMfValue, twoHoldingPortfolio])⟩

/-! ### C4 -/

theorem disciplineSavingsComponent_nonneg (sr : ℚ) : 0 ≤ disciplineSavingsComponent sr := by
  unfold disciplineSavingsComponent
  split_ifs <;> norm_num

theorem disciplineDivComponent_nonneg (d : List (String × ℚ)) : 0 ≤ disciplineDivComponent d := by
  unfold disciplineDivComponent
  split_ifs <;> norm_num

theorem disciplineCreditComponent_nonneg (c : Option ℤ) : 0 ≤ disciplineCreditComponent c := by
  rcases c with _ | v
  · norm_num [disciplineCreditComponent]
  · simp only [disciplineCreditComponent]
    split_ifs <;> norm_num

theorem disciplineLeverageComponent_nonneg (nw l : ℚ) : 0 ≤ disciplineLeverageComponent nw l := by
  simp only [disciplineLeverageComponent]
  split_ifs <;> norm_num

theorem calculateDisciplineScore_nonneg (sr : ℚ) (d : List (String × ℚ)) (c : Option ℤ)
    (nw l : ℚ) : 0 ≤ calculateDisciplineScore sr d c nw l :=
  le_min
    (add_nonneg
      (add_nonneg
        (add_nonneg (disciplineSavingsComponent_nonneg sr) (disciplineDivComponent_nonneg d))
        (disciplineCreditComponent_nonneg c))
      (disciplineLeverageComponent_nonneg nw l))
    (by norm_num)

/-- C4 counterexample: at `liabilities = -1` (and everything else trivial) the
code's discipline score is 10 — the Python `else` branch of the leverage
component fires for every non-positive liabilities value — while the claim's
component list (`liabilities == 0 → +10`, nothing for negative liabilities)
yields 0. -/
theorem C4_counterexample :
    calculateDisciplineScore 0 [] none 0 (-1) ≠ disciplineScoreClaimed 0 [] none 0 (-1) := by
  have h1 : calculateDisciplineScore 0 [] none 0 (-1) = 10 := by
    norm_num [calculateDisciplineScore, disciplineSavingsComponent, disciplineDivComponent,
      disciplineCreditComponent, disciplineLeverageComponent, min_def]
  have h2 : disciplineScoreClaimed 0 [] none 0 (-1) = 0 := by
    norm_num [disciplineScoreClaimed, disciplineSavingsComponent, disciplineDivComponent,
      min_def, max_def]
  rw [h1, h2]
  norm_num

/-- C4 as amended: the discipline score equals the claim's additive formula
with the leverage bonus `+10` extended from `liabilities == 0` to every
`liabilities ≤ 0` (which is what the code's `else` branch does), and the
result always lies in `[0, 100]`. -/
theorem C4_discipline_amended (sr : ℚ) (d : List (String × ℚ)) (c : Option ℤ) (nw l : ℚ) :
    calculateDisciplineScore sr d c nw l = disciplineScoreAmendedSpec sr d c nw l
    ∧ 0 ≤ calculateDisciplineScore sr d c nw l
    ∧ calculateDisciplineScore sr d c nw l ≤ 100 := by
  have hnn := calculateDisciplineScore_nonneg sr d c nw l
  refine ⟨?_, hnn, min_le_right _ _⟩
  rcases c with _ | v
  · simp only [calculateDisciplineScore, disciplineScoreAmendedSpec,
      disciplineCreditComponent] at hnn ⊢
    exact (max_eq_left hnn).symm
  · have hcv : disciplineCreditComponent (some v)
        = (if v > 750 then (20 : ℚ) else if v > 650 then 15 else if v > 550 then 10 else 0) := by
      simp only [disciplineCreditComponent]
      split_ifs <;> first | rfl | (exfalso; omega)
    simp only [calculateDisciplineScore, disciplineScoreAmendedSpec, hcv] at hnn ⊢
    exact (max_eq_left hnn).symm

/-! ### C5 -/

theorem ite_empty_fallback_ne_nil (l : List String) :
    (if l = [] then [recMaintain] else l) ≠ [] := by
  split_ifs with h
  · simp
  · exact h

theorem specRecommendationsAmended_ne_nil (sr : ℚ) (d : List (String × ℚ)) (c : Option ℤ)
    (ds : ℚ) : specRecommendationsAmended sr d c ds ≠ [] := by
  simp only [specRecommendationsAmended]
  exact ite_empty_fallback_ne_nil _

/-- C5 counterexample: with a present credit score of 0 (below 750), no other
rule firing, the code emits only the maintenance recommendation — the Python
guard `credit_score and credit_score < 750` treats 0 as falsy, so the
improve-credit recommendation does NOT appear, refuting the claim's
"including credit_score = 0". -/
theorem C5_counterexample :
    recCredit ∉ generateRecommendations 25 [("equity", 50), ("debt", 30), ("gold", 20)]
      (some 0) 70 := by
  have hc : creditRecFires (some 0) = false := rfl
  have h : generateRecommendations 25 [("equity", 50), ("debt", 30), ("gold", 20)]
      (some 0) 70 = [recMaintain] := by
    norm_num [generateRecommendations, hc]
  rw [h]
  simp [recCredit, recMaintain]

/-- C5 as amended: the recommendation list is exactly the four rules
evaluated in fixed order — with the improve-credit rule firing only for a
present, NONZERO credit score below 750 (a stored score of 0 is treated like
an absent one by the Python truthiness guard) — followed by the single
maintenance entry when no rule fired; the list is duplicate-free and never
empty. -/
theorem C5_recommendations_amended (sr : ℚ) (d : List (String × ℚ)) (c : Option ℤ) (ds : ℚ) :
    generateRecommendations sr d c ds = specRecommendationsAmended sr d c ds
    ∧ (generateRecommendations sr d c ds).Nodup
    ∧ generateRecommendations sr d c ds ≠ [] := by
  have heq : generateRecommendations sr d c ds = specRecommendationsAmended sr d c ds := by
    rcases c with _ | v
    · by_cases h1 : sr < 20 <;> by_cases h2 : d.length < 3 <;> by_cases h4 : ds < 60 <;>
        simp [generateRecommendations, specRecommendationsAmended, creditRecFires, h1, h2, h4]
    · by_cases h1 : sr < 20 <;> by_cases h2 : d.length < 3 <;>
        by_cases h3 : v ≠ 0 ∧ v < 750 <;> by_cases h4 : ds < 60 <;>
        simp [generateRecommendations, specRecommendationsAmended, creditRecFires, h1, h2, h3, h4]
  have hnodup : (specRecommendationsAmended sr d c ds).Nodup := by
    rcases c with _ | v
    · by_cases h1 : sr < 20 <;> by_cases h2 : d.length < 3 <;> by_cases h4 : ds < 60 <;>
        simp [specRecommendationsAmended, h1, h2, h4, recSavings, recDiversify, recCredit,
          recPlan, recMaintain]
    · by_cases h1 : sr < 20 <;> by_cases h2 : d.length < 3 <;>
        by_cases h3 : v ≠ 0 ∧ v < 750 <;> by_cases h4 : ds < 60 <;>
        simp [specRecommendationsAmended, h1, h2, h3, h4, recSavings, recDiversify, recCredit,
          recPlan, recMaintain]
  refine ⟨heq, ?_, ?_⟩
  · rw [heq]
    exact hnodup
  · rw [heq]
    exact specRecommendationsAmended_ne_nil sr d c ds

/-! ### C6 -/

/-- C6: for every net worth, savings rate and horizon, the code's projected
net worth coincides exactly with the reference computation written from the
spec's formula (8% return, `max(net_worth*0.15, 500000)` income, compound
wealth growth plus annuity future value); in particular the 30-year
projection for net_worth = 1,000,000 and savings_rate = 20 matches the
reference within relative tolerance 1e-6 (here: exactly). -/
theorem C6_projection_formula :
    (∀ (nw sr : ℚ) (years : ℕ),
      (generateProjection nw sr years).projected_net_worth
        = referenceProjectedNetWorth nw sr years)
    ∧ |(generateProjection 1000000 20 30).projected_net_worth
          - referenceProjectedNetWorth 1000000 20 30|
        ≤ referenceProjectedNetWorth 1000000 20 30 * (1 / 1000000) := by
  have hmain : ∀ (nw sr : ℚ) (years : ℕ),
      (generateProjection nw sr years).projected_net_worth
        = referenceProjectedNetWorth nw sr years := by
    intro nw sr years
    have hr : ((8 : ℚ) / 100) > 0 := by norm_num
    have hr0 : ¬ ((8 : ℚ) / 100) = 0 := by norm_num
    simp only [generateProjection, referenceProjectedNetWorth, if_pos hr, if_neg hr0]
  refine ⟨hmain, ?_⟩
  rw [hmain 1000000 20 30, sub_self, abs_zero]
  have hr0 : ¬ ((8 : ℚ) / 100) = 0 := by norm_num
  have h1 : (1 : ℚ) ≤ (1 + 8 / 100) ^ (30 : ℕ) := one_le_pow₀ (by norm_num)
  simp only [referenceProjectedNetWorth, if_neg hr0]
  refine mul_nonneg (add_nonneg ?_ ?_) (by norm_num)
  · exact mul_nonneg (by norm_num) (pow_nonneg (by norm_num) _)
  · refine mul_nonneg (mul_nonneg ?_ (by norm_num)) (div_nonneg (by linarith) (by norm_num))
    exact le_trans (by norm_num) (le_max_right _ _)

/-! ### C7 -/

/-- C7 counterexample: for a deeply negative net worth (−1,000,000,000,
savings rate 0, 30-year horizon) the projected total is negative, so
`min(total/10,000,000*100, 100)` is negative — the freedom score escapes
`[0, 100]` below. -/
theorem C7_counterexample :
    (generateProjection (-1000000000) 0 30).financial_freedom_score < 0 := by
  have hr : ((8 : ℚ) / 100) > 0 := by norm_num
  have h1 : (1 : ℚ) ≤ (1 + 8 / 100) ^ (30 : ℕ) := one_le_pow₀ (by norm_num)
  simp only [generateProjection, if_pos hr]
  apply lt_of_le_of_lt (min_le_left _ _)
  have h2 : max ((-1000000000 : ℚ) * (15 / 100)) 500000 * ((0 : ℚ) / 100)
      * (((1 + 8 / 100) ^ (30 : ℕ) - 1) / (8 / 100)) = 0 := by
    norm_num
  have htot : (-1000000000 : ℚ) * (1 + 8 / 100) ^ (30 : ℕ)
      + max ((-1000000000 : ℚ) * (15 / 100)) 500000 * ((0 : ℚ) / 100)
        * (((1 + 8 / 100) ^ (30 : ℕ) - 1) / (8 / 100)) < 0 := by
    rw [h2]
    nlinarith [h1]
  linarith [htot]

/-- C7 as amended: the freedom score never exceeds 100 for any input, and it
lies in `[0, 100]` whenever the projected-from net worth and the savings rate
are nonnegative; the lower bound genuinely fails for sufficiently negative
inputs (see the counterexample). -/
theorem C7_freedom_amended (nw sr : ℚ) (years : ℕ) :
    (generateProjection nw sr years).financial_freedom_score ≤ 100
    ∧ (0 ≤ nw → 0 ≤ sr → 0 ≤ (generateProjection nw sr years).financial_freedom_score) := by
  constructor
  · simp only [generateProjection]
    exact min_le_right _ _
  · intro hnw hsr
    have hr : ((8 : ℚ) / 100) > 0 := by norm_num
    have h1 : (1 : ℚ) ≤ (1 + 8 / 100) ^ years := one_le_pow₀ (by norm_num)
    simp only [generateProjection, if_pos hr]
    refine le_min ?_ (by norm_num)
    refine mul_nonneg (div_nonneg (add_nonneg ?_ ?_) (by norm_num)) (by norm_num)
    · exact mul_nonneg hnw (pow_nonneg (by norm_num) _)
    · refine mul_nonneg (mul_nonneg ?_ (div_nonneg hsr (by norm_num)))
        (div_nonneg (by linarith) (by norm_num))
      exact le_trans (by norm_num) (le_max_right _ _)

/-- Witness for C7's amended bounds at net worth 0, savings rate 0,
30-year horizon. -/
theorem C7_freedom_amended_witness :
    (generateProjection 0 0 30).financial_freedom_score ≤ 100
    ∧ 0 ≤ (generateProjection 0 0 30).financial_freedom_score :=
  ⟨(C7_freedom_amended 0 0 30).1, (C7_freedom_amended 0 0 30).2 le_rfl le_rfl⟩

/-! ### C8 -/

theorem healthNames_missing_marker :
    ∀ n ∈ healthSourceNames, containsSub ("Missing data from " ++ n) "Missing data" = true := by
  decide

theorem missingCount_mkErrors :
    ∀ (pairs : List (String × SourceState)),
      (∀ p ∈ pairs, containsSub ("Missing data from " ++ p.1) "Missing data" = true) →
      (∀ p ∈ pairs, ∀ m, p.2 = SourceState.errored m →
        containsSub ("Error in " ++ p.1 ++ ": " ++ m) "Missing data" = false) →
      missingDataErrorCount (mkErrors pairs)
        = (pairs.filter fun p => p.2.isMissing).length := by
  intro pairs
  induction pairs with
  | nil => intro _ _; rfl
  | cons p rest ih =>
    intro hn hm
    have hn' : ∀ q ∈ rest, containsSub ("Missing data from " ++ q.1) "Missing data" = true :=
      fun q hq => hn q (List.mem_cons_of_mem p hq)
    have hm' : ∀ q ∈ rest, ∀ m, q.2 = SourceState.errored m →
        containsSub ("Error in " ++ q.1 ++ ": " ++ m) "Missing data" = false :=
      fun q hq m hh => hm q (List.mem_cons_of_mem p hq) m hh
    have hrec := ih hn' hm'
    rcases p with ⟨n, st⟩
    cases st with
    | missing =>
      have hx : containsSub ("Missing data from " ++ n) "Missing data" = true :=
        hn ⟨n, SourceState.missing⟩ (List.mem_cons_self _ _)
      simp [mkErrors, missingDataErrorCount, List.filter, hx, SourceState.isMissing]
        at hrec ⊢
      omega
    | errored m =>
      have hx : containsSub ("Error in " ++ n ++ ": " ++ m) "Missing data" = false :=
        hm ⟨n, SourceState.errored m⟩ (List.mem_cons_self _ _) m rfl
      simp [mkErrors, missingDataErrorCount, List.filter, hx, SourceState.isMissing]
        at hrec ⊢
      omega
    | incomplete =>
      simp [mkErrors, missingDataErrorCount, List.filter, SourceState.isMissing] at hrec ⊢
      omega
    | ok =>
      simp [mkErrors, missingDataErrorCount, List.filter, SourceState.isMissing] at hrec ⊢
      omega

theorem filter_zip_length :
    ∀ (l1 : List String) (l2 : List SourceState), l1.length = l2.length →
      ((l1.zip l2).filter fun p => p.2.isMissing).length
        = (l2.filter fun s => s.isMissing).length := by
  intro l1
  induction l1 with
  | nil =>
    intro l2 h
    cases l2 with
    | nil => rfl
    | cons s ss => simp at h
  | cons a as ih =>
    intro l2 h
    cases l2 with
    | nil => simp at h
    | cons s ss =>
      have ih' := ih ss (by simpa using h)
      simp only [List.zip] at ih'
      simp only [List.zip_cons_cons, List.filter]
      cases hs : s.isMissing <;> simp [hs, ih']

theorem okCount_add_missing (sts : List SourceState) :
    okSourceCount sts + (sts.filter fun s => s.isMissing).length = sts.length := by
  induction sts with
  | nil => rfl
  | cons s rest ih =>
    cases hs : s.isMissing <;>
      simp [okSourceCount, List.filter, hs] at ih ⊢ <;> omega

/-- C8: the overall system status computed by `ErrorHandlingAgent` is exactly
the spec's threshold classification of the cross-source success ratio
(success = the source key held data), for every run outcome of the six
sources — provided no upstream error message itself contains the literal
marker "Missing data" that the code greps its error list for. -/
theorem C8_health_status (sts : List SourceState) (hlen : sts.length = 6)
    (hmsg : ∀ p ∈ healthSourceNames.zip sts, ∀ m, p.2 = SourceState.errored m →
      containsSub ("Error in " ++ p.1 ++ ": " ++ m) "Missing data" = false) :
    systemStatusOf sts = specClassify (okSourceCount sts) 6 := by
  have hnames : ∀ p ∈ healthSourceNames.zip sts,
      containsSub ("Missing data from " ++ p.1) "Missing data" = true := by
    intro p hp
    exact healthNames_missing_marker p.1 (List.of_mem_zip hp).1
  have hcount := missingCount_mkErrors (healthSourceNames.zip sts) hnames hmsg
  have hzip : ((healthSourceNames.zip sts).filter fun p => p.2.isMissing).length
      = (sts.filter fun s => s.isMissing).length :=
    filter_zip_length healthSourceNames sts (by rw [hlen]; rfl)
  have hfle : (sts.filter fun s => s.isMissing).length ≤ 6 := by
    calc (sts.filter fun s => s.isMissing).length ≤ sts.length := List.length_filter_le _ _
    _ = 6 := hlen
  have hok := okCount_add_missing sts
  have hokeq : okSourceCount sts = 6 - (sts.filter fun s => s.isMissing).length := by omega
  simp only [systemStatusOf, specClassify, hcount, hzip, hokeq]
  norm_num [healthSourceNames]

/-- Witness for C8 at the all-sources-missing outcome: the classified status
is "critical" (0% success ratio). -/
theorem C8_health_status_witness : systemStatusOf allMissingStates = "critical" := by
  have hm : ∀ p ∈ healthSourceNames.zip allMissingStates, ∀ m,
      p.2 = SourceState.errored m →
      containsSub ("Error in " ++ p.1 ++ ": " ++ m) "Missing data" = false := by
    intro p hp m hpm
    have hp2 : p.2 = SourceState.missing := by
      simp only [healthSourceNames, allMissingStates, List.zip_cons_cons, List.zip_nil_right,
        List.mem_cons, List.not_mem_nil, or_false] at hp
      rcases hp with h | h | h | h | h | h <;> rw [h]
    rw [hp2] at hpm
    cases hpm
  have h := C8_health_status allMissingStates rfl hm
  rw [h]
  norm_num [specClassify, okSourceCount, allMissingStates, SourceState.isMissing, List.filter]

/-! ### C9 -/

theorem asyncRetryAux_all_fail {α : Type} (op : ℕ → Except String α)
    (h : ∀ i, exceptIsOk (op i) = false) :
    ∀ (r a : ℕ), asyncRetryAux op a r = op (a + r) := by
  intro r
  induction r with
  | zero =>
    intro a
    simp [asyncRetryAux]
  | succ n ihr =>
    intro a
    rw [asyncRetryAux]
    cases hop : op a with
    | ok x =>
      have := h a
      rw [hop] at this
      simp [exceptIsOk] at this
    | error e =>
      rw [ihr (a + 1)]
      have harith : a + 1 + n = a + (n + 1) := by omega
      rw [harith]

/-- C9 counterexample: an operation that fails on every attempt makes
`async_retry` (default `max_retries = 3`) re-raise the exception to its
caller — the combinator's outcome IS the propagated exception, not a
status=error source result, refuting the claim that a fault never
propagates past the fetch/retry boundary. -/
theorem C9_counterexample :
    asyncRetry defaultMaxRetries
        (fun _ => (Except.error "connection failed" : Except String Unit))
      = Except.error "connection failed"
    ∧ exceptIsOk (asyncRetry defaultMaxRetries
        (fun _ => (Except.error "connection failed" : Except String Unit))) = false := by
  constructor
  · rfl
  · rfl

/-- C9 as amended: when the wrapped operation fails on every attempt, the
retry combinator performs `max_retries + 1 = 4` calls (one initial attempt
plus three retries with exponential backoff) and then re-raises the LAST
exception to its caller; it never converts the failure into a status=error
result itself — that conversion is left to the surrounding (LLM-level)
fetcher, which is outside the Python core. -/
theorem C9_retry_amended {α : Type} (op : ℕ → Except String α)
    (h : ∀ i, exceptIsOk (op i) = false) :
    asyncRetry defaultMaxRetries op = op 3
    ∧ exceptIsOk (asyncRetry defaultMaxRetries op) = false := by
  have hr : asyncRetry defaultMaxRetries op = op 3 := by
    have := asyncRetryAux_all_fail op h 3 0
    simpa [asyncRetry, defaultMaxRetries] using this
  exact ⟨hr, by rw [hr]; exact h 3⟩

/-- Witness for C9's amended behaviour on a concrete always-failing
operation. -/
theorem C9_retry_amended_witness :
    asyncRetry defaultMaxRetries
        (fun _ => (Except.error "upstream unavailable" : Except String Unit))
      = Except.error "upstream unavailable"
    ∧ exceptIsOk (asyncRetry defaultMaxRetries
        (fun _ => (Except.error "upstream unavailable" : Except String Unit))) = false :=
  C9_retry_amended (fun _ => Except.error "upstream unavailable") (fun _ => rfl)

/-! ### C10 -/

theorem lookupAssoc_foldl_entryStep (es : List NWEntry) :
    ∀ (init : ℚ × List (String × ℚ)) (c : String),
      lookupAssoc (es.foldl entryStep init).2 c
        = match lastValueFor es c with
          | some v => some v
          | none => lookupAssoc init.2 c := by
  induction es with
  | nil =>
    intro init c
    simp [lastValueFor]
  | cons e rest ih =>
    intro init c
    rw [List.foldl_cons, ih]
    cases hl : lastValueFor rest c with
    | some v => simp [lastValueFor, hl]
    | none =>
      simp only [lastValueFor, hl]
      have hstep : (entryStep init e).2 = updateAssoc init.2 (entryCat e) (entryVal e) := rfl
      rw [hstep, lookupAssoc_updateAssoc]
      by_cases hc : entryCat e = c
      · simp [hc]
      · simp [hc]

theorem fst_foldl_entryStep (es : List NWEntry) :
    ∀ (init : ℚ × List (String × ℚ)),
      (es.foldl entryStep init).1 = init.1 + (es.map entryVal).sum := by
  induction es with
  | nil => intro init; simp
  | cons e rest ih =>
    intro init
    rw [List.foldl_cons, ih]
    simp only [entryStep, List.map_cons, List.sum_cons]
    ring

theorem snd_foldl_entryStep (es : List NWEntry) :
    ∀ (init : ℚ × List (String × ℚ)),
      (es.map entryCat).Nodup →
      (∀ e ∈ es, lookupAssoc init.2 (entryCat e) = none) →
      sumValues (es.foldl entryStep init).2 = sumValues init.2 + (es.map entryVal).sum := by
  induction es with
  | nil => intro init _ _; simp
  | cons e rest ih =>
    intro init hnd hmem
    have hlk : lookupAssoc init.2 (entryCat e) = none := hmem e (List.mem_cons_self _ _)
    have hnd' : (rest.map entryCat).Nodup := (List.nodup_cons.mp (by simpa using hnd)).2
    have hne : entryCat e ∉ rest.map entryCat := (List.nodup_cons.mp (by simpa using hnd)).1
    have hstep : (entryStep init e).2 = init.2 ++ [(entryCat e, entryVal e)] := by
      show updateAssoc init.2 (entryCat e) (entryVal e) = _
      exact updateAssoc_of_lookup_none init.2 (entryCat e) (entryVal e) hlk
    have hmem' : ∀ e2 ∈ rest, lookupAssoc (entryStep init e).2 (entryCat e2) = none := by
      intro e2 he2
      rw [hstep]
      refine lookupAssoc_append_single init.2 (entryCat e) (entryVal e) (entryCat e2)
        (hmem e2 (List.mem_cons_of_mem e he2)) ?_
      intro hcontra
      exact hne (hcontra ▸ List.mem_map_of_mem entryCat he2)
    rw [List.foldl_cons, ih (entryStep init e) hnd' hmem', hstep]
    simp only [sumValues, List.map_append, List.sum_append, List.map_cons, List.sum_cons,
      List.map_nil, List.sum_nil]
    ring

/-- C10: in the aggregation loops of `_build_dna_from_data`, the running
total accumulates the value of EVERY entry, while the breakdown dict assigns
each category the value of the LAST entry seen for it (earlier same-category
entries are overwritten); consequently, when the entries have pairwise
distinct categories the breakdown values sum exactly to the total.  Both the
asset and the liability loop are the same `processEntries` computation. -/
theorem C10_breakdown_semantics (es : List NWEntry) (c : String) :
    (processEntries es).1 = (es.map entryVal).sum
    ∧ lookupAssoc (processEntries es).2 c = lastValueFor es c
    ∧ ((es.map entryCat).Nodup → sumValues (processEntries es).2 = (processEntries es).1) := by
  refine ⟨?_, ?_, ?_⟩
  · have := fst_foldl_entryStep es (0, [])
    simpa [processEntries] using this
  · have := lookupAssoc_foldl_entryStep es (0, []) c
    simp only [processEntries]
    rw [this]
    cases lastValueFor es c <;> rfl
  · intro hnd
    have h1 := snd_foldl_entryStep es (0, []) hnd (by intro e _; rfl)
    have h2 := fst_foldl_entryStep es (0, [])
    simp only [processEntries] at *
    rw [h1, h2]
    simp [sumValues]

/-- Witness for C10 on the §8 scenario entries with distinct categories
(property 5,000,000 and savings 1,000,000). -/
theorem C10_breakdown_semantics_witness :
    (processEntries distinctAssetEntries).1 = (distinctAssetEntries.map entryVal).sum
    ∧ lookupAssoc (processEntries distinctAssetEntries).2 "ASSET_TYPE_SAVINGS"
        = lastValueFor distinctAssetEntries "ASSET_TYPE_SAVINGS"
    ∧ sumValues (processEntries distinctAssetEntries).2 = (processEntries distinctAssetEntries).1 :=
  ⟨(C10_breakdown_semantics distinctAssetEntries "ASSET_TYPE_SAVINGS").1,
   (C10_breakdown_semantics distinctAssetEntries "ASSET_TYPE_SAVINGS").2.1,
   (C10_breakdown_semantics distinctAssetEntries "ASSET_TYPE_SAVINGS").2.2
     (by simp [distinctAssetEntries, entryCat])⟩

end ZenH2S
